import Mathlib

/-
Verification of `stonesoup/detector/tensorflow.py`, the
`TensorFlowBoxObjectDetector` frame-to-detection conversion logic.

Modelling conventions:
* Floating-point values (box coordinates, scores, the raw detection count)
  are embedded as rationals.
* The Python `category_index` dict is an association list from integer class
  ids to category records; dict lookup is first-match `find?`.
* Python exceptions (`KeyError` from a failed dict lookup, `IndexError` from
  indexing an empty batch axis) are embedded with `Except`.
* The returned Python `set` of detections is a `Finset` over a `Detection`
  type with decidable value equality.
* The external inference call `self._detect_fn(input_tensor)` is a black box:
  the detector carries an arbitrary function from frames to raw output
  dictionaries, and the theorems quantify over it.
-/

namespace StoneSoup

/-- A category record `{id, name}`, one entry of the category index built by
`label_map_util.create_category_index_from_labelmap`. -/
structure Category where
  id : ℤ
  name : String
deriving DecidableEq

/-- A raw bounding box `[y_min, x_min, y_max, x_max]` in relative
coordinates, as produced by the model; field `bi` mirrors the Python
indexing `box[i]`, so `b0 = y_min`, `b1 = x_min`, `b2 = y_max`,
`b3 = x_max`. -/
structure Box where
  b0 : ℚ
  b1 : ℚ
  b2 : ℚ
  b3 : ℚ
deriving DecidableEq

/-- The 4-element `StateVector([x, y, w, h])` built at lines 104-107; field
`vi` is entry `i` of the column vector. -/
structure StateVector where
  v0 : ℚ
  v1 : ℚ
  v2 : ℚ
  v3 : ℚ
deriving DecidableEq

/-- The metadata dict `{raw_box, class, score}` attached to each detection
(lines 98-102). `class` is a Lean keyword, hence the field name `cls`. -/
structure Metadata where
  raw_box : Box
  cls : Category
  score : ℚ
deriving DecidableEq

/-- A `Detection` record (lines 108-110). The `Detection` class itself lives
in `stonesoup/types/detection.py`, outside this excerpt; per the spec data
model it carries a state vector, a timestamp and the metadata mapping, and
detections compare by value (set semantics collapse value-identical
records). Timestamps are embedded as integers. -/
structure Detection where
  state_vector : StateVector
  timestamp : ℤ
  metadata : Metadata
deriving DecidableEq

/-- A video frame. The code reads
`frame_height, frame_width, _ = frame.pixels.shape` (line 96), so the model
keeps the three components of the pixel-array shape plus the timestamp; the
pixel contents only flow into the black-box inference call. -/
structure Frame where
  height : ℕ
  width : ℕ
  channels : ℕ
  timestamp : ℤ
deriving DecidableEq

/-- The inference output dictionary. Each `detection_*` entry is a batched
tensor whose outer list is the batch axis (the model is fed a batch of one
frame); `num_detections` is the scalar count popped at line 85. Raw class
ids arrive as floats (rationals here) and are cast to integers at line 90. -/
structure RawOutput where
  num_detections : ℚ
  detection_boxes : List (List Box)
  detection_classes : List (List ℚ)
  detection_scores : List (List ℚ)

/-- The detector state relevant to `_get_detections_from_frame`: the
category index built at construction (lines 69-71) and the loaded inference
function `_detect_fn` (lines 63-67), a black box from frames to raw
outputs. -/
structure TensorFlowBoxObjectDetector where
  category_index : List (ℤ × Category)
  detect_fn : Frame → RawOutput

/-- Python `int(x)` applied to a float scalar: truncation toward zero. -/
def pyInt (q : ℚ) : ℤ :=
  if 0 ≤ q then ⌊q⌋ else ⌈q⌉

/-- Python slicing `xs[:n]` with an integer bound `n`: for `0 ≤ n` it takes
the first `n` elements, clamping at the length of `xs`; for negative `n` it
drops the last `-n` elements. -/
def pySliceTo (n : ℤ) {α : Type} (xs : List α) : List α :=
  if 0 ≤ n then xs.take n.toNat else xs.take (xs.length - (-n).toNat)

/-- Indexing `value[0]` on the batch axis: `IndexError` (modelled as `none`)
when the batch axis is empty. -/
def batch0 {α : Type} (v : List (List α)) : Option (List α) :=
  v.head?

/-- The Python exceptions that `_get_detections_from_frame` can raise:
a `KeyError` from `self.category_index[class_]` (line 100) and an
`IndexError` from batch indexing (line 86). -/
inductive PyError where
  | keyError (k : ℤ)
  | indexError
deriving DecidableEq

/-- The dict lookup `self.category_index[class_]` (line 100): the first
entry with a matching key, `none` meaning `KeyError`. -/
def categoryLookup (idx : List (ℤ × Category)) (k : ℤ) : Option Category :=
  (idx.find? (fun p => p.1 == k)).map Prod.snd

/-- Python `zip` over three lists, stopping at the shortest (line 97). -/
def zip3 {α β γ : Type} : List α → List β → List γ → List (α × β × γ)
  | a :: as, b :: bs, c :: cs => (a, b, c) :: zip3 as bs cs
  | _, _, _ => []

/-- The box transform of lines 103-107: from a relative
`[y_min, x_min, y_max, x_max]` box to the absolute-pixel
`StateVector([x, y, w, h])`. -/
def toStateVector (frame_height frame_width : ℕ) (box : Box) : StateVector :=
  { v0 := box.b1 * (frame_width : ℚ)
    v1 := box.b0 * (frame_height : ℚ)
    v2 := (box.b3 - box.b1) * (frame_width : ℚ)
    v3 := (box.b2 - box.b0) * (frame_height : ℚ) }

/-- One loop body of lines 98-110, after the category lookup succeeded:
the `Detection` built from one `(box, class_, score)` triple. -/
def mkDetection (frame_height frame_width : ℕ) (timestamp : ℤ)
    (cat : Category) (box : Box) (score : ℚ) : Detection :=
  { state_vector := toStateVector frame_height frame_width box
    timestamp := timestamp
    metadata := { raw_box := box, cls := cat, score := score } }

/-- The `for box, class_, score in zip(...)` loop of lines 95-111: build up
the set of detections, raising `KeyError` at the first class id missing
from the category index (in which case no set is returned at all). -/
def formDetections (frame_height frame_width : ℕ) (timestamp : ℤ)
    (idx : List (ℤ × Category)) :
    List (Box × ℤ × ℚ) → Except PyError (Finset Detection)
  | [] => .ok ∅
  | (box, class_, score) :: rest =>
    match categoryLookup idx class_ with
    | none => .error (.keyError class_)
    | some cat =>
      (formDetections frame_height frame_width timestamp idx rest).map
        (insert (mkDetection frame_height frame_width timestamp cat box score))

/-- Lines 80-97: run the black-box inference, pop the scalar
`num_detections`, rewrite every other output entry with
`value[0, :num_detections]` (select batch index 0, truncate along the
detection axis), cast the class ids to integers, and zip boxes, classes and
scores into the triples the loop consumes. -/
def getTriples (self : TensorFlowBoxObjectDetector) (frame : Frame) :
    Except PyError (List (Box × ℤ × ℚ)) :=
  let output_dict := self.detect_fn frame
  let num_detections := pyInt output_dict.num_detections
  match batch0 output_dict.detection_boxes,
        batch0 output_dict.detection_classes,
        batch0 output_dict.detection_scores with
  | some boxesB, some classesB, some scoresB =>
    let boxes := pySliceTo num_detections boxesB
    let classes := (pySliceTo num_detections classesB).map pyInt
    let scores := pySliceTo num_detections scoresB
    .ok (zip3 boxes classes scores)
  | _, _, _ => .error .indexError

/-- `TensorFlowBoxObjectDetector._get_detections_from_frame` (lines 73-113).
The detector is returned alongside the result to make explicit that the
method leaves the detector state untouched. -/
def getDetectionsFromFrame (self : TensorFlowBoxObjectDetector)
    (frame : Frame) :
    TensorFlowBoxObjectDetector × Except PyError (Finset Detection) :=
  match getTriples self frame with
  | .error e => (self, .error e)
  | .ok triples =>
    (self, formDetections frame.height frame.width frame.timestamp
      self.category_index triples)

/-- Modelled from the spec: the public contract
`detect(frame) -> set<Detection>` comes from the `_VideoAsyncDetector` base
class in `stonesoup/detector/_video.py`, which is not part of this excerpt;
per the spec it obtains the detections for a frame from
`_get_detections_from_frame` and hands the set to the caller. -/
def detect (self : TensorFlowBoxObjectDetector) (frame : Frame) :
    Except PyError (Finset Detection) :=
  (getDetectionsFromFrame self frame).2

/-- The setup-documentation URL the remediation message points at. -/
def setupDocURL : String :=
  "https://tensorflow-object-detection-api-tutorial.readthedocs.io/en/latest/install.html"

/-- The remediation message of the import guard at lines 8-13. -/
def importGuardMessage : String :=
  "Usage of the TensorFlow detectors requires that TensorFlow and the " ++
  "TensorFlow Object Detection API  are installed. A quick guide on how " ++
  "to set these up can be found here: " ++ setupDocURL

/-- Lines 5-13: the module-level try/except import guard. `depsAvailable`
abstracts whether `tensorflow` and `object_detection.utils` import
successfully; when they do not, the module raises `ImportError` with the
remediation message and nothing of the module is defined. -/
def moduleImportGuard (depsAvailable : Bool) : Except String Unit :=
  if depsAvailable then .ok () else .error importGuardMessage

/-- Well-formedness of a category index: each record carries the class id it
is filed under, as in the indexes built by
`create_category_index_from_labelmap` (record `{id, name}` stored at key
`id`). -/
def CategoryIndexWF (idx : List (ℤ × Category)) : Prop :=
  ∀ p ∈ idx, p.2.id = p.1

instance (idx : List (ℤ × Category)) : Decidable (CategoryIndexWF idx) := by
  unfold CategoryIndexWF
  infer_instance

/-- The example scenario of the spec: category index `{3: {id:3, name:car}}`. -/
def exampleIndex : List (ℤ × Category) :=
  [(3, { id := 3, name := "car" })]

/-- The example frame: 100 by 200 pixels (H = 100, W = 200). -/
def exampleFrame : Frame :=
  { height := 100, width := 200, channels := 3, timestamp := 7 }

/-- The raw box of the example scenario, `[0.1, 0.2, 0.5, 0.6]`. -/
def exampleBox : Box :=
  { b0 := 1/10, b1 := 1/5, b2 := 1/2, b3 := 3/5 }

/-- The raw inference output of the example scenario: one detection with
the example box, class 3 and score 0.9. -/
def exampleOutput : RawOutput :=
  { num_detections := 1
    detection_boxes := [[exampleBox]]
    detection_classes := [[3]]
    detection_scores := [[9/10]] }

/-- The example detector: the example category index together with a
black-box inference function returning the example output. -/
def exampleDetector : TensorFlowBoxObjectDetector :=
  { category_index := exampleIndex, detect_fn := fun _ => exampleOutput }

/-- The detection the example scenario should produce:
state vector `[40, 10, 80, 40]` and metadata
`{raw_box: [0.1,0.2,0.5,0.6], class: {id:3, name:car}, score: 0.9}`. -/
def exampleDetection : Detection :=
  { state_vector := { v0 := 40, v1 := 10, v2 := 80, v3 := 40 }
    timestamp := 7
    metadata := { raw_box := exampleBox
                  cls := { id := 3, name := "car" }
                  score := 9/10 } }

/-- A successful category lookup in a well-formed index returns a record
carrying the looked-up id. -/
theorem categoryLookup_id {idx : List (ℤ × Category)} {k : ℤ} {cat : Category}
    (hWF : CategoryIndexWF idx) (h : categoryLookup idx k = some cat) :
    cat.id = k := by
  unfold categoryLookup at h
  cases hf : idx.find? (fun p => p.1 == k) with
  | none => rw [hf] at h; exact absurd h (by simp)
  | some p =>
    rw [hf] at h
    simp only [Option.map_some'] at h
    injection h with h
    have hp := List.find?_some hf
    have hmem : p ∈ idx := List.mem_of_find?_eq_some hf
    have hk : p.1 = k := by simpa using hp
    rw [← h, hWF p hmem, hk]

/-- Elimination for a successful call: it factors through a successful
`getTriples` and a successful `formDetections`. -/
theorem getDetections_ok_elim {self : TensorFlowBoxObjectDetector}
    {frame : Frame} {s : Finset Detection}
    (h : (getDetectionsFromFrame self frame).2 = .ok s) :
    ∃ triples, getTriples self frame = .ok triples ∧
      formDetections frame.height frame.width frame.timestamp
        self.category_index triples = .ok s := by
  unfold getDetectionsFromFrame at h
  cases ht : getTriples self frame with
  | error e => rw [ht] at h; exact absurd h (by simp)
  | ok triples => rw [ht] at h; exact ⟨triples, rfl, h⟩

/-- Membership in a successfully formed detection set: every element comes
from one of the zipped triples, through a successful lookup. -/
theorem formDetections_mem {fh fw : ℕ} {ts : ℤ} {idx : List (ℤ × Category)}
    {l : List (Box × ℤ × ℚ)} {s : Finset Detection}
    (h : formDetections fh fw ts idx l = .ok s) {d : Detection} (hd : d ∈ s) :
    ∃ t ∈ l, ∃ cat, categoryLookup idx t.2.1 = some cat ∧
      d = mkDetection fh fw ts cat t.1 t.2.2 := by
  induction l generalizing s with
  | nil =>
    simp only [formDetections] at h
    cases h
    exact absurd hd (by simp)
  | cons t rest ih =>
    obtain ⟨box, class_, score⟩ := t
    simp only [formDetections] at h
    cases hcat : categoryLookup idx class_ with
    | none => rw [hcat] at h; exact absurd h (by simp)
    | some cat =>
      rw [hcat] at h
      cases hrec : formDetections fh fw ts idx rest with
      | error e => rw [hrec] at h; exact absurd h (by simp [Except.map])
      | ok s0 =>
        rw [hrec] at h
        simp only [Except.map] at h
        injection h with h
        subst h
        rcases Finset.mem_insert.mp hd with h1 | h2
        · exact ⟨(box, class_, score), List.mem_cons_self _ _, cat, hcat, h1⟩
        · obtain ⟨t2, ht2, cat2, hc2, hd2⟩ := ih hrec h2
          exact ⟨t2, List.mem_cons_of_mem _ ht2, cat2, hc2, hd2⟩

/-- A second raw box for multi-detection scenarios. -/
def exampleBox2 : Box :=
  { b0 := 0, b1 := 0, b2 := 1/4, b3 := 1/4 }

/-- The detection the second box yields on the example frame:
x = 0*200, y = 0*100, w = (1/4)*200, h = (1/4)*100. -/
def exampleDetection2 : Detection :=
  { state_vector := { v0 := 0, v1 := 0, v2 := 50, v3 := 25 }
    timestamp := 7
    metadata := { raw_box := exampleBox2
                  cls := { id := 3, name := "car" }
                  score := 1/2 } }

/-- An inference output reporting two distinct detections. -/
def twoOutput : RawOutput :=
  { num_detections := 2
    detection_boxes := [[exampleBox, exampleBox2]]
    detection_classes := [[3, 3]]
    detection_scores := [[9/10, 1/2]] }

/-- A detector whose black-box inference reports the two detections. -/
def twoDetector : TensorFlowBoxObjectDetector :=
  { category_index := exampleIndex, detect_fn := fun _ => twoOutput }

/-- A detector with an empty category index, so every reported class id is
unknown. -/
def missingClassDetector : TensorFlowBoxObjectDetector :=
  { category_index := [], detect_fn := fun _ => exampleOutput }

/-- An inference output over-reporting its count: `num_detections = 10`
while every array holds a single entry. -/
def overOutput : RawOutput :=
  { num_detections := 10
    detection_boxes := [[exampleBox]]
    detection_classes := [[3]]
    detection_scores := [[9/10]] }

/-- A detector whose black-box inference over-reports the count. -/
def overDetector : TensorFlowBoxObjectDetector :=
  { category_index := exampleIndex, detect_fn := fun _ => overOutput }

/-- Slicing with a natural bound is `List.take`. -/
theorem pySliceTo_natCast {α : Type} (n : ℕ) (xs : List α) :
    pySliceTo (n : ℤ) xs = xs.take n := by
  simp [pySliceTo]

/-- Slicing with bound zero gives the empty list. -/
theorem pySliceTo_zero {α : Type} (xs : List α) : pySliceTo 0 xs = [] := by
  simp [pySliceTo]

/-- Slicing clamps: a nonnegative bound at least the length returns the
whole list. -/
theorem pySliceTo_of_length_le {α : Type} {n : ℤ} (xs : List α)
    (h0 : 0 ≤ n) (h : (xs.length : ℤ) ≤ n) : pySliceTo n xs = xs := by
  unfold pySliceTo
  rw [if_pos h0]
  have hlen : xs.length ≤ n.toNat := by omega
  exact List.take_of_length_le hlen

/-- Zipping with an empty first list gives the empty list. -/
theorem zip3_nil {α β γ : Type} (bs : List β) (cs : List γ) :
    zip3 ([] : List α) bs cs = [] := by
  cases bs <;> cases cs <;> rfl

/-- The zipped length is the minimum of the three lengths. -/
theorem zip3_length {α β γ : Type} :
    ∀ (as : List α) (bs : List β) (cs : List γ),
      (zip3 as bs cs).length = min as.length (min bs.length cs.length)
  | [], bs, cs => by
    cases bs <;> cases cs <;> simp [zip3]
  | _ :: as, [], cs => by
    cases cs <;> simp [zip3]
  | _ :: as, _ :: bs, [] => by
    simp [zip3]
  | a :: as, b :: bs, c :: cs => by
    simp only [zip3, List.length_cons, zip3_length as bs cs]
    omega

/-- Computation rule for `getTriples` when the batch axes are nonempty. -/
theorem getTriples_eq {self : TensorFlowBoxObjectDetector} {frame : Frame}
    {boxesB : List Box} {classesB scoresB : List ℚ}
    (hb : batch0 (self.detect_fn frame).detection_boxes = some boxesB)
    (hc : batch0 (self.detect_fn frame).detection_classes = some classesB)
    (hs : batch0 (self.detect_fn frame).detection_scores = some scoresB) :
    getTriples self frame =
      .ok (zip3
        (pySliceTo (pyInt (self.detect_fn frame).num_detections) boxesB)
        ((pySliceTo (pyInt (self.detect_fn frame).num_detections) classesB).map
          pyInt)
        (pySliceTo (pyInt (self.detect_fn frame).num_detections) scoresB)) := by
  simp only [getTriples]
  rw [hb, hc, hs]

/-- Elimination for a successful `getTriples`: the batch axes were nonempty
and the triples are the zip of the sliced arrays. -/
theorem getTriples_ok_elim {self : TensorFlowBoxObjectDetector}
    {frame : Frame} {triples : List (Box × ℤ × ℚ)}
    (h : getTriples self frame = .ok triples) :
    ∃ boxesB classesB scoresB,
      batch0 (self.detect_fn frame).detection_boxes = some boxesB ∧
      batch0 (self.detect_fn frame).detection_classes = some classesB ∧
      batch0 (self.detect_fn frame).detection_scores = some scoresB ∧
      triples = zip3
        (pySliceTo (pyInt (self.detect_fn frame).num_detections) boxesB)
        ((pySliceTo (pyInt (self.detect_fn frame).num_detections) classesB).map
          pyInt)
        (pySliceTo (pyInt (self.detect_fn frame).num_detections) scoresB) := by
  simp only [getTriples] at h
  cases hb : batch0 (self.detect_fn frame).detection_boxes with
  | none =>
    rw [hb] at h
    cases batch0 (self.detect_fn frame).detection_classes <;>
      cases batch0 (self.detect_fn frame).detection_scores <;> simp at h
  | some boxesB =>
    rw [hb] at h
    cases hc : batch0 (self.detect_fn frame).detection_classes with
    | none =>
      rw [hc] at h
      cases batch0 (self.detect_fn frame).detection_scores <;> simp at h
    | some classesB =>
      rw [hc] at h
      cases hsc : batch0 (self.detect_fn frame).detection_scores with
      | none => rw [hsc] at h; simp at h
      | some scoresB =>
        rw [hsc] at h
        simp only at h
        injection h with h
        exact ⟨boxesB, classesB, scoresB, rfl, rfl, rfl, h.symm⟩

/-- The loop succeeds when every zipped class id is in the index. -/
theorem formDetections_ok {fh fw : ℕ} {ts : ℤ} {idx : List (ℤ × Category)}
    {l : List (Box × ℤ × ℚ)}
    (h : ∀ t ∈ l, (categoryLookup idx t.2.1).isSome = true) :
    ∃ s, formDetections fh fw ts idx l = .ok s := by
  induction l with
  | nil => exact ⟨∅, rfl⟩
  | cons t rest ih =>
    obtain ⟨s0, hs0⟩ := ih (fun t2 ht2 => h t2 (List.mem_cons_of_mem _ ht2))
    obtain ⟨box, class_, score⟩ := t
    have hh : (categoryLookup idx class_).isSome = true :=
      h (box, class_, score) (List.mem_cons_self _ _)
    cases hcat : categoryLookup idx class_ with
    | none => rw [hcat] at hh; exact absurd hh (by simp)
    | some cat =>
      refine ⟨insert (mkDetection fh fw ts cat box score) s0, ?_⟩
      simp only [formDetections, hcat, hs0, Except.map]

/-- The loop raises `KeyError` when some zipped class id is missing from
the index, and then no set is returned. -/
theorem formDetections_err {fh fw : ℕ} {ts : ℤ} {idx : List (ℤ × Category)}
    {l : List (Box × ℤ × ℚ)}
    (h : ∃ t ∈ l, categoryLookup idx t.2.1 = none) :
    ∃ k, categoryLookup idx k = none ∧
      formDetections fh fw ts idx l = .error (.keyError k) := by
  induction l with
  | nil => simp at h
  | cons t rest ih =>
    obtain ⟨box, class_, score⟩ := t
    cases hcat : categoryLookup idx class_ with
    | none =>
      exact ⟨class_, hcat, by simp only [formDetections, hcat]⟩
    | some cat =>
      obtain ⟨t2, ht2, hc2⟩ := h
      rcases List.mem_cons.mp ht2 with heq | hmem
      · subst heq
        have hc2x : categoryLookup idx class_ = none := hc2
        rw [hcat] at hc2x
        exact absurd hc2x (by simp)
      · obtain ⟨k, hk, hform⟩ := ih ⟨t2, hmem, hc2⟩
        exact ⟨k, hk, by simp only [formDetections, hcat, hform, Except.map]⟩

/-- Under a well-formed index, the built detection determines the raw box,
the class id (through the id stored in the record) and the score. -/
theorem mkDetection_inj {fh fw : ℕ} {ts : ℤ} {idx : List (ℤ × Category)}
    {c1 c2 : ℤ} {cat1 cat2 : Category} {b1 b2 : Box} {q1 q2 : ℚ}
    (hWF : CategoryIndexWF idx)
    (h1 : categoryLookup idx c1 = some cat1)
    (h2 : categoryLookup idx c2 = some cat2)
    (heq : mkDetection fh fw ts cat1 b1 q1 = mkDetection fh fw ts cat2 b2 q2) :
    b1 = b2 ∧ c1 = c2 ∧ q1 = q2 := by
  have hb : b1 = b2 := congrArg (fun d => d.metadata.raw_box) heq
  have hc : cat1 = cat2 := congrArg (fun d => d.metadata.cls) heq
  have hq : q1 = q2 := congrArg (fun d => d.metadata.score) heq
  have hid1 := categoryLookup_id hWF h1
  have hid2 := categoryLookup_id hWF h2
  exact ⟨hb, by rw [← hid1, ← hid2, hc], hq⟩

/-- Under a well-formed index, pairwise-distinct triples yield a set with
exactly one element per triple. -/
theorem formDetections_card {fh fw : ℕ} {ts : ℤ} {idx : List (ℤ × Category)}
    (hWF : CategoryIndexWF idx) :
    ∀ {l : List (Box × ℤ × ℚ)} {s : Finset Detection}, l.Nodup →
      formDetections fh fw ts idx l = .ok s → s.card = l.length := by
  intro l
  induction l with
  | nil =>
    intro s _ h
    simp only [formDetections] at h
    injection h with h
    rw [← h]
    simp
  | cons t rest ih =>
    intro s hnd h
    obtain ⟨box, class_, score⟩ := t
    simp only [formDetections] at h
    cases hcat : categoryLookup idx class_ with
    | none => rw [hcat] at h; exact absurd h (by simp)
    | some cat =>
      rw [hcat] at h
      cases hrec : formDetections fh fw ts idx rest with
      | error e => rw [hrec] at h; exact absurd h (by simp [Except.map])
      | ok s0 =>
        rw [hrec] at h
        simp only [Except.map] at h
        injection h with h
        subst h
        have hnotmem : mkDetection fh fw ts cat box score ∉ s0 := by
          intro hmem
          obtain ⟨t2, ht2, cat2, hc2, heq⟩ := formDetections_mem hrec hmem
          obtain ⟨box2, class2, score2⟩ := t2
          have hc2x : categoryLookup idx class2 = some cat2 := hc2
          obtain ⟨hb, hcid, hq⟩ := mkDetection_inj hWF hcat hc2x heq
          subst hb; subst hcid; subst hq
          exact (List.nodup_cons.mp hnd).1 ht2
        rw [Finset.card_insert_of_not_mem hnotmem,
          ih (List.nodup_cons.mp hnd).2 hrec, List.length_cons]

/-- Mapping two inserts over an `Except` result commutes. -/
theorem map_insert_comm (d1 d2 : Detection)
    (x : Except PyError (Finset Detection)) :
    Except.map (insert d1) (Except.map (insert d2) x) =
      Except.map (insert d2) (Except.map (insert d1) x) := by
  cases x <;> simp [Except.map, Finset.Insert.comm]

/-- Inserting the detection of a triple absorbs a later occurrence of the
same triple in the list the loop runs over. -/
theorem formDetections_insert_dup {fh fw : ℕ} {ts : ℤ}
    {idx : List (ℤ × Category)} {box : Box} {class_ : ℤ} {score : ℚ}
    {cat : Category} (hcat : categoryLookup idx class_ = some cat)
    (l2 l3 : List (Box × ℤ × ℚ)) :
    (formDetections fh fw ts idx (l2 ++ (box, class_, score) :: l3)).map
      (insert (mkDetection fh fw ts cat box score)) =
    (formDetections fh fw ts idx (l2 ++ l3)).map
      (insert (mkDetection fh fw ts cat box score)) := by
  induction l2 with
  | nil =>
    simp only [List.nil_append, formDetections, hcat]
    cases formDetections fh fw ts idx l3 with
    | error e => rfl
    | ok s => simp [Except.map, Finset.insert_idem]
  | cons t2 l2 ih =>
    obtain ⟨box2, class2, score2⟩ := t2
    simp only [List.cons_append, formDetections, List.append_eq]
    cases hcat2 : categoryLookup idx class2 with
    | none => rfl
    | some cat2 =>
      simp only []
      rw [map_insert_comm, ih]
      exact map_insert_comm _ _ _

/-- Evaluation of the example scenario end to end. -/
theorem exampleRun_eval :
    (getDetectionsFromFrame exampleDetector exampleFrame).2 =
      .ok {exampleDetection} := by
  have ht : getTriples exampleDetector exampleFrame =
      .ok [(exampleBox, 3, 9/10)] := rfl
  unfold getDetectionsFromFrame
  rw [ht]
  simp only [formDetections, categoryLookup, exampleIndex, List.find?]
  norm_num
  simp only [Except.map, insert_emptyc_eq]
  norm_num [mkDetection, toStateVector, exampleDetection, exampleBox,
    exampleFrame]

/-- Evaluation of the two-detection scenario end to end. -/
theorem twoRun_eval :
    (getDetectionsFromFrame twoDetector exampleFrame).2 =
      .ok {exampleDetection, exampleDetection2} := by
  have ht : getTriples twoDetector exampleFrame =
      .ok [(exampleBox, 3, 9/10), (exampleBox2, 3, 1/2)] := rfl
  unfold getDetectionsFromFrame
  rw [ht]
  simp only [formDetections, categoryLookup, exampleIndex, List.find?]
  norm_num
  simp only [Except.map, insert_emptyc_eq]
  norm_num [mkDetection, toStateVector, exampleDetection, exampleDetection2,
    exampleBox, exampleBox2, exampleFrame]

/-- Claim C1: every detection produced by `_get_detections_from_frame` on a
frame of width `W` and height `H` has state vector
`[x_min*W, y_min*H, (x_max-x_min)*W, (y_max-y_min)*H]`, where the raw box
it carries is `[y_min, x_min, y_max, x_max]`. -/
theorem C1_state_vector_formula (self : TensorFlowBoxObjectDetector)
    (frame : Frame) (s : Finset Detection)
    (h : (getDetectionsFromFrame self frame).2 = .ok s)
    (d : Detection) (hd : d ∈ s) :
    d.state_vector.v0 = d.metadata.raw_box.b1 * (frame.width : ℚ) ∧
    d.state_vector.v1 = d.metadata.raw_box.b0 * (frame.height : ℚ) ∧
    d.state_vector.v2 =
      (d.metadata.raw_box.b3 - d.metadata.raw_box.b1) * (frame.width : ℚ) ∧
    d.state_vector.v3 =
      (d.metadata.raw_box.b2 - d.metadata.raw_box.b0) * (frame.height : ℚ) := by
  obtain ⟨triples, -, hform⟩ := getDetections_ok_elim h
  obtain ⟨t, -, cat, -, rfl⟩ := formDetections_mem hform hd
  exact ⟨rfl, rfl, rfl, rfl⟩

/-- Claim C1 witness: the example scenario — a 100 by 200 frame (H = 100,
W = 200) and raw box [0.1, 0.2, 0.5, 0.6] — yields the state vector
[40, 10, 80, 40], matching the formula. -/
theorem C1_state_vector_formula_witness :
    (getDetectionsFromFrame exampleDetector exampleFrame).2 =
      .ok {exampleDetection} ∧
    exampleDetection.state_vector =
      { v0 := 40, v1 := 10, v2 := 80, v3 := 40 } ∧
    (exampleDetection.state_vector.v0 =
        exampleDetection.metadata.raw_box.b1 * (exampleFrame.width : ℚ) ∧
      exampleDetection.state_vector.v1 =
        exampleDetection.metadata.raw_box.b0 * (exampleFrame.height : ℚ) ∧
      exampleDetection.state_vector.v2 =
        (exampleDetection.metadata.raw_box.b3 -
          exampleDetection.metadata.raw_box.b1) * (exampleFrame.width : ℚ) ∧
      exampleDetection.state_vector.v3 =
        (exampleDetection.metadata.raw_box.b2 -
          exampleDetection.metadata.raw_box.b0) * (exampleFrame.height : ℚ)) :=
  ⟨exampleRun_eval, rfl,
    C1_state_vector_formula exampleDetector exampleFrame {exampleDetection}
      exampleRun_eval exampleDetection (Finset.mem_singleton_self _)⟩

/-- Claim C2: when some zipped triple of a call carries a class id absent
from the category index, the call raises a lookup error (`KeyError`) and
returns no detection set at all, partial or otherwise. -/
theorem C2_unknown_class_id (self : TensorFlowBoxObjectDetector)
    (frame : Frame) (triples : List (Box × ℤ × ℚ))
    (ht : getTriples self frame = .ok triples)
    (hmiss : ∃ t ∈ triples, categoryLookup self.category_index t.2.1 = none) :
    ∃ k, categoryLookup self.category_index k = none ∧
      (getDetectionsFromFrame self frame).2 = .error (.keyError k) := by
  have hgoal : (getDetectionsFromFrame self frame).2 =
      formDetections frame.height frame.width frame.timestamp
        self.category_index triples := by
    unfold getDetectionsFromFrame
    rw [ht]
  obtain ⟨k, hk, hform⟩ :=
    @formDetections_err frame.height frame.width frame.timestamp
      self.category_index triples hmiss
  exact ⟨k, hk, hgoal.trans hform⟩

/-- Claim C2 witness: a detector with an empty category index fails with a
`KeyError` on the example inference output. -/
theorem C2_unknown_class_id_witness :
    getTriples missingClassDetector exampleFrame =
      .ok [(exampleBox, 3, 9/10)] ∧
    categoryLookup missingClassDetector.category_index 3 = none ∧
    ∃ k, categoryLookup missingClassDetector.category_index k = none ∧
      (getDetectionsFromFrame missingClassDetector exampleFrame).2 =
        .error (.keyError k) :=
  ⟨rfl, rfl,
    C2_unknown_class_id missingClassDetector exampleFrame
      [(exampleBox, 3, 9/10)] rfl ⟨(exampleBox, 3, 9/10),
        List.mem_cons_self _ _, rfl⟩⟩

/-- Claim C3: under a well-formed category index, a call whose inference
result reports zero detections returns the empty set, and a call with
pairwise-distinct zipped triples returns a set with exactly one element per
triple — nothing is dropped by score or box-validity filtering. -/
theorem C3_detection_count (self : TensorFlowBoxObjectDetector)
    (frame : Frame) (triples : List (Box × ℤ × ℚ)) (s : Finset Detection)
    (hWF : CategoryIndexWF self.category_index)
    (ht : getTriples self frame = .ok triples)
    (hs : (getDetectionsFromFrame self frame).2 = .ok s) :
    (pyInt (self.detect_fn frame).num_detections = 0 → s = ∅) ∧
    (triples.Nodup → s.card = triples.length) := by
  obtain ⟨triples2, ht2, hform⟩ := getDetections_ok_elim hs
  rw [ht] at ht2
  injection ht2 with ht2
  subst ht2
  constructor
  · intro hzero
    obtain ⟨boxesB, classesB, scoresB, hb, hc, hsc, htr⟩ :=
      getTriples_ok_elim ht
    rw [hzero] at htr
    simp only [pySliceTo_zero, List.map_nil, zip3_nil] at htr
    subst htr
    simp only [formDetections] at hform
    injection hform with hform
    exact hform.symm
  · intro hnd
    exact formDetections_card hWF hnd hform

/-- Claim C3 witness: the two-detection scenario (N = 2, no duplicates)
returns a set of exactly two elements. -/
theorem C3_detection_count_witness :
    getTriples twoDetector exampleFrame =
      .ok [(exampleBox, 3, 9/10), (exampleBox2, 3, 1/2)] ∧
    (getDetectionsFromFrame twoDetector exampleFrame).2 =
      .ok {exampleDetection, exampleDetection2} ∧
    ((pyInt (twoDetector.detect_fn exampleFrame).num_detections = 0 →
        ({exampleDetection, exampleDetection2} : Finset Detection) = ∅) ∧
      (([(exampleBox, 3, 9/10), (exampleBox2, 3, 1/2)] :
          List (Box × ℤ × ℚ)).Nodup →
        ({exampleDetection, exampleDetection2} : Finset Detection).card =
          ([(exampleBox, 3, 9/10), (exampleBox2, 3, 1/2)] :
            List (Box × ℤ × ℚ)).length)) :=
  ⟨rfl, twoRun_eval,
    C3_detection_count twoDetector exampleFrame
      [(exampleBox, 3, 9/10), (exampleBox2, 3, 1/2)]
      {exampleDetection, exampleDetection2} (by decide) rfl twoRun_eval⟩

/-- Claim C4: every returned detection carries the timestamp of the frame,
and its metadata holds the original untransformed raw box, the
category-index record of the reported class id, and the reported score of
one of the zipped triples of the call. -/
theorem C4_metadata_completeness (self : TensorFlowBoxObjectDetector)
    (frame : Frame) (s : Finset Detection)
    (h : (getDetectionsFromFrame self frame).2 = .ok s)
    (d : Detection) (hd : d ∈ s) :
    d.timestamp = frame.timestamp ∧
    ∃ triples, getTriples self frame = .ok triples ∧
      ∃ t ∈ triples, d.metadata.raw_box = t.1 ∧
        categoryLookup self.category_index t.2.1 = some d.metadata.cls ∧
        d.metadata.score = t.2.2 := by
  obtain ⟨triples, ht, hform⟩ := getDetections_ok_elim h
  obtain ⟨t, htm, cat, hcat, rfl⟩ := formDetections_mem hform hd
  exact ⟨rfl, triples, ht, t, htm, rfl, hcat, rfl⟩

/-- Claim C4 witness: in the example scenario the returned detection keeps
the raw box, the looked-up class record, the score and the frame
timestamp. -/
theorem C4_metadata_completeness_witness :
    (getDetectionsFromFrame exampleDetector exampleFrame).2 =
      .ok {exampleDetection} ∧
    exampleDetection.metadata.raw_box = exampleBox ∧
    exampleDetection.metadata.score = 9/10 ∧
    (exampleDetection.timestamp = exampleFrame.timestamp ∧
      ∃ triples, getTriples exampleDetector exampleFrame = .ok triples ∧
        ∃ t ∈ triples, exampleDetection.metadata.raw_box = t.1 ∧
          categoryLookup exampleDetector.category_index t.2.1 =
            some exampleDetection.metadata.cls ∧
          exampleDetection.metadata.score = t.2.2) :=
  ⟨exampleRun_eval, rfl, rfl,
    C4_metadata_completeness exampleDetector exampleFrame {exampleDetection}
      exampleRun_eval exampleDetection (Finset.mem_singleton_self _)⟩

/-- Claim C5: before forming detections the call reads the scalar
`num_detections`, truncates every output array along its detection axis to
the first `num_detections` entries while selecting batch index 0, and casts
the class-id array to integers. -/
theorem C5_output_postprocessing (self : TensorFlowBoxObjectDetector)
    (frame : Frame) (n : ℕ) (boxesB : List Box) (classesB scoresB : List ℚ)
    (hn : pyInt (self.detect_fn frame).num_detections = (n : ℤ))
    (hb : batch0 (self.detect_fn frame).detection_boxes = some boxesB)
    (hc : batch0 (self.detect_fn frame).detection_classes = some classesB)
    (hs : batch0 (self.detect_fn frame).detection_scores = some scoresB) :
    getTriples self frame =
      .ok (zip3 (boxesB.take n) ((classesB.take n).map pyInt)
        (scoresB.take n)) := by
  rw [getTriples_eq hb hc hs, hn, pySliceTo_natCast, pySliceTo_natCast,
    pySliceTo_natCast]

/-- Claim C5 witness: the example output, with count 1, is truncated to the
first entry of each array and the class id is cast to an integer. -/
theorem C5_output_postprocessing_witness :
    pyInt (exampleDetector.detect_fn exampleFrame).num_detections =
      ((1 : ℕ) : ℤ) ∧
    batch0 (exampleDetector.detect_fn exampleFrame).detection_boxes =
      some [exampleBox] ∧
    getTriples exampleDetector exampleFrame =
      .ok (zip3 ([exampleBox].take 1) (([(3 : ℚ)].take 1).map pyInt)
        ([(9/10 : ℚ)].take 1)) :=
  ⟨by decide, rfl,
    C5_output_postprocessing exampleDetector exampleFrame 1 [exampleBox]
      [(3 : ℚ)] [(9/10 : ℚ)] (by decide) rfl rfl rfl⟩

/-- Claim C6: two value-identical triples (same box, class and score) in
one call collapse into a single element of the returned set: the set formed
with the duplicate occurrence present equals the set formed with it
removed. -/
theorem C6_duplicates_collapse (fh fw : ℕ) (ts : ℤ)
    (idx : List (ℤ × Category)) (t : Box × ℤ × ℚ)
    (l1 l2 l3 : List (Box × ℤ × ℚ)) :
    formDetections fh fw ts idx (l1 ++ t :: l2 ++ t :: l3) =
      formDetections fh fw ts idx (l1 ++ t :: l2 ++ l3) := by
  induction l1 with
  | nil =>
    obtain ⟨box, class_, score⟩ := t
    simp only [List.nil_append, formDetections, List.append_eq]
    cases hcat : categoryLookup idx class_ with
    | none => rfl
    | some cat =>
      simp only []
      exact formDetections_insert_dup hcat l2 l3
  | cons t2 l1 ih =>
    obtain ⟨box2, class2, score2⟩ := t2
    simp only [List.cons_append, formDetections, List.append_eq]
    cases categoryLookup idx class2 with
    | none => rfl
    | some cat2 =>
      simp only []
      rw [ih]

/-- Claim C7: a call does not mutate detector state — it hands back the
same detector, with the same category index and the same loaded inference
function. -/
theorem C7_no_state_mutation (self : TensorFlowBoxObjectDetector)
    (frame : Frame) :
    (getDetectionsFromFrame self frame).1 = self ∧
    (getDetectionsFromFrame self frame).1.category_index =
      self.category_index ∧
    (getDetectionsFromFrame self frame).1.detect_fn = self.detect_fn := by
  have h : (getDetectionsFromFrame self frame).1 = self := by
    unfold getDetectionsFromFrame
    cases getTriples self frame <;> rfl
  exact ⟨h, by rw [h], by rw [h]⟩

/-- Claim C8: with the dependencies absent, importing the module fails with
the remediation message, which ends with the setup-documentation URL; with
the dependencies present the import succeeds. -/
theorem C8_missing_dependency :
    moduleImportGuard false = .error importGuardMessage ∧
    (∃ p, importGuardMessage = p ++ setupDocURL) ∧
    moduleImportGuard true = .ok () :=
  ⟨rfl, ⟨_, rfl⟩, rfl⟩

/-- Claim C9: with arrays of unequal lengths the zip stops at the shortest
of the three, and the loop raises nothing on that account — it succeeds
(given the class ids are known), producing detections only for the zipped
prefix and silently ignoring the surplus entries. -/
theorem C9_unequal_lengths (fh fw : ℕ) (ts : ℤ)
    (idx : List (ℤ × Category)) (bs : List Box) (cs : List ℤ) (ss : List ℚ)
    (h : ∀ t ∈ zip3 bs cs ss, (categoryLookup idx t.2.1).isSome = true) :
    (zip3 bs cs ss).length = min bs.length (min cs.length ss.length) ∧
    ∃ s, formDetections fh fw ts idx (zip3 bs cs ss) = .ok s :=
  ⟨zip3_length bs cs ss, formDetections_ok h⟩

/-- Claim C9 witness: two boxes, three class ids and one score zip to a
single triple and the loop succeeds. -/
theorem C9_unequal_lengths_witness :
    (zip3 [exampleBox, exampleBox2] [(3 : ℤ), 3, 3] [(9/10 : ℚ)]).length =
      min [exampleBox, exampleBox2].length
        (min [(3 : ℤ), 3, 3].length [(9/10 : ℚ)].length) ∧
    ∃ s, formDetections 100 200 7 exampleIndex
      (zip3 [exampleBox, exampleBox2] [(3 : ℤ), 3, 3] [(9/10 : ℚ)]) =
        .ok s :=
  C9_unequal_lengths 100 200 7 exampleIndex [exampleBox, exampleBox2]
    [(3 : ℤ), 3, 3] [(9/10 : ℚ)] (by decide)

/-- Claim C10: an over-reported `num_detections` clamps — slicing with a
count at least each array length keeps the whole arrays, and the call still
succeeds, so an over-reported count never by itself makes it fail. -/
theorem C10_overcount_clamps (self : TensorFlowBoxObjectDetector)
    (frame : Frame) (boxesB : List Box) (classesB scoresB : List ℚ)
    (hb : batch0 (self.detect_fn frame).detection_boxes = some boxesB)
    (hc : batch0 (self.detect_fn frame).detection_classes = some classesB)
    (hs : batch0 (self.detect_fn frame).detection_scores = some scoresB)
    (h0 : 0 ≤ pyInt (self.detect_fn frame).num_detections)
    (hnb : (boxesB.length : ℤ) ≤ pyInt (self.detect_fn frame).num_detections)
    (hnc : (classesB.length : ℤ) ≤
      pyInt (self.detect_fn frame).num_detections)
    (hns : (scoresB.length : ℤ) ≤
      pyInt (self.detect_fn frame).num_detections) :
    getTriples self frame = .ok (zip3 boxesB (classesB.map pyInt) scoresB) := by
  rw [getTriples_eq hb hc hs,
    pySliceTo_of_length_le boxesB h0 hnb,
    pySliceTo_of_length_le classesB h0 hnc,
    pySliceTo_of_length_le scoresB h0 hns]

/-- Claim C10 witness: an output reporting 10 detections over arrays of
length 1 is processed without failure, keeping the whole arrays. -/
theorem C10_overcount_clamps_witness :
    pyInt (overDetector.detect_fn exampleFrame).num_detections = 10 ∧
    getTriples overDetector exampleFrame =
      .ok (zip3 [exampleBox] ([(3 : ℚ)].map pyInt) [(9/10 : ℚ)]) :=
  ⟨by decide,
    C10_overcount_clamps overDetector exampleFrame [exampleBox] [(3 : ℚ)]
      [(9/10 : ℚ)] rfl rfl rfl (by decide) (by decide) (by decide)
      (by decide)⟩

end StoneSoup
